import Mathlib

/-!
Shallow embedding of the weather-favourites service
(`weather_management/models/favourites_model.py`, `user_model.py`) and proofs
about its specified behaviour.

Modelling conventions:
* Python exceptions become an explicit `Err` sum type; each constructor
  corresponds to one distinct `raise` site or uncaught runtime fault.
* HTTP calls (`requests.get`) become oracle values/functions of type
  `HttpResult`: the provider either answers with a status code and the JSON
  body that `response.json()` would decode, or the call raises
  `requests.exceptions.RequestException`.
* The source never calls `.json()`: it subscripts the `requests.Response`
  object itself (`response["current"]`, `response["forecast"]`), and
  `requests.Response` defines no `__getitem__`, so every 200-status weather
  path raises `TypeError: 'Response' object is not subscriptable`
  (`Err.typeError`) before any payload key is read, whatever body the
  response carries.
* JSON objects are still modelled as structures with `Option`-valued fields
  (`none` models an absent key) so that statements can quantify over the
  carried payload, but no such field is ever read by the embedded code.
* Numeric JSON values are modelled as `ℚ`, text values as `String`.
* Mutating methods return `(Except Err Unit) × FavouritesModel`: the second
  component is the state after the call, also when an exception was raised.
* Where a method issues HTTP requests, the embedding also returns the list
  (or count) of requests issued, to reason about which calls were made.
-/

/-- Errors: one constructor per `raise` site / uncaught Python fault. -/
inductive Err where
  /-- `ValueError: Location with name {location} already exists in favourites` -/
  | duplicateLocation (location : String)
  /-- `ValueError: Location {location} not found in favourites.` -/
  | locationNotFound (location : String)
  /-- `ValueError: Favourites is empty` -/
  | emptyFavourites
  /-- `ValueError: Invalid location name: {location}` -/
  | invalidLocationName (location : String)
  /-- `ValueError: Days must be in the format of YYYY-MM-dd, got {date}` -/
  | invalidDateFormat (date : String)
  /-- `ValueError: Days must be greater than 0 and less than 10, got {days}` -/
  | invalidDays (days : Int)
  /-- `ValueError: User with username {username} not found` -/
  | userNotFound (username : String)
  /-- a re-raised `requests.exceptions.RequestException` -/
  | requestException
  /-- the uncaught `TypeError: 'Response' object is not subscriptable`
  raised by `response[...]` on the never-decoded `requests.Response` -/
  | typeError
  deriving DecidableEq, Repr

/-- Outcome of one `requests.get` call: a response with a status code and a
decoded body, or a transport failure. -/
inductive HttpResult (α : Type) where
  | response (status_code : Nat) (body : α)
  | requestException
  deriving DecidableEq, Repr

/-- The `condition` sub-object of a provider payload (`{"text": ...}`). -/
structure CondObj where
  text : Option String
  deriving DecidableEq, Repr

/-- The `current` object of the JSON body a `/current.json` response
carries; the source never decodes the response, so none of these keys is
ever actually read. -/
structure CurrentFields where
  temp_c : Option ℚ
  feelslike_c : Option ℚ
  humidity : Option ℚ
  wind_kph : Option ℚ
  wind_dir : Option String
  pressure_mb : Option ℚ
  precip_mm : Option ℚ
  cloud : Option ℚ
  condition : Option CondObj
  deriving DecidableEq, Repr

/-- Decoded body of a `/current.json` response: the top-level `current` key
may itself be absent. -/
abbrev CurrentBody : Type := Option CurrentFields

/-- The `CurrentWeather` dataclass (`CurrentWeather_model.py`). -/
structure CurrentWeather where
  name : String
  temperature : ℚ
  feels_like : ℚ
  humidity : ℚ
  wind_speed : ℚ
  wind_direction : String
  pressure_mb : ℚ
  precipitation : ℚ
  cloud : ℚ
  condition : String
  deriving DecidableEq, Repr

/-- The per-day `day` object of the JSON body a `/history.json` /
`/forecast.json` response carries.  The source never decodes the response,
so none of these keys is ever actually read; the constructions at lines
233/292 would read `daily_chance_of_rain` for both chance fields. -/
structure DayFields where
  mintemp_c : Option ℚ
  maxtemp_c : Option ℚ
  avgtemp_c : Option ℚ
  maxwind_kph : Option ℚ
  totalprecip_mm : Option ℚ
  totalsnow_cm : Option ℚ
  avgvis_km : Option ℚ
  avghumidity : Option ℚ
  daily_chance_of_rain : Option ℚ
  daily_chance_of_snow : Option ℚ
  condition : Option CondObj
  deriving DecidableEq, Repr

/-- One element of the provider's `forecast.forecastday` array. -/
structure DayEntry where
  date : Option String
  day : Option DayFields
  deriving DecidableEq, Repr

/-- The `forecast` object of a `/history.json` / `/forecast.json` payload. -/
structure ForecastObj where
  forecastday : Option (List DayEntry)
  deriving DecidableEq, Repr

/-- Decoded body of a `/history.json` / `/forecast.json` response: the
top-level `forecast` key may itself be absent. -/
abbrev ForecastBody : Type := Option ForecastObj

/-- The `WeatherData` dataclass (`WeatherData_model.py`). -/
structure WeatherData where
  name : String
  date : String
  min_temp : ℚ
  max_temp : ℚ
  avg_temp : ℚ
  max_wind_speed : ℚ
  total_precipitation_mm : ℚ
  total_snow_cm : ℚ
  avg_visibility : ℚ
  avg_humidity : ℚ
  chance_of_rain : ℚ
  chance_of_snow : ℚ
  condition : String
  deriving DecidableEq, Repr

/-- Lines 120-136: on status 200 the source evaluates
`CurrentWeather(name=..., temperature=response["current"]["temp_c"], ...)`.
`response` is the un-decoded `requests.Response` (`.json()` is called
nowhere in the file) and `requests.Response` has no `__getitem__`, so the
first argument evaluation raises the uncaught `TypeError` before any
payload key is read or any record field is produced — for every carried
body, complete or not. -/
def build_current_weather (_name : String) (_body : CurrentBody) :
    Except Err CurrentWeather :=
  .error .typeError

/-- Lines 217-237: on status 200 the source evaluates
`day = response["forecast"]["forecastday"][0]` and then `WeatherData(...)`;
the first subscript on the un-decoded `requests.Response` raises the
uncaught `TypeError`, so no historical record (and no `KeyError` or
`IndexError` on the carried body) can ever be produced. -/
def build_historical_weather_data (_name : String) (_body : ForecastBody) :
    Except Err WeatherData :=
  .error .typeError

/-- Lines 275-296: on status 200 the source runs
`for day in response["forecast"]["forecastday"]`, appending a `WeatherData`
per day; the subscript on the un-decoded `requests.Response` raises the
uncaught `TypeError` before the loop starts, so no forecast record is ever
produced.  (Were the body decoded, lines 291-292 would read
`daily_chance_of_rain` for both `chance_of_rain` and `chance_of_snow`.) -/
def build_forecast_weather_data (_name : String) (_body : ForecastBody) :
    Except Err (List WeatherData) :=
  .error .typeError

/-- The `FavouritesModel` class state (`__init__`, lines 26-33). -/
structure FavouritesModel where
  username : String
  favourites : List String
  base_url : String
  api_key : String
  deriving DecidableEq, Repr

/-- `FavouritesModel.__init__`. -/
def initFavouritesModel (username api_key : String) : FavouritesModel :=
  { username := username, favourites := [],
    base_url := "http://api.weatherapi.com/v1", api_key := api_key }

/-- `FavouritesModel.check_if_empty` (lines 344-353). -/
def check_if_empty (m : FavouritesModel) : Except Err Unit :=
  if m.favourites = [] then .error .emptyFavourites else .ok ()

/-- `FavouritesModel.get_favourites_length` (lines 307-311). -/
def get_favourites_length (m : FavouritesModel) : Nat :=
  m.favourites.length

/-- `FavouritesModel.validate_location_name` (lines 317-342).  `tz location`
is the provider's answer to `GET {base_url}/timezone.json` with this model's
API key and `q = location`; the body is never inspected (only
`status_code`). -/
def validate_location_name (tz : String → HttpResult Unit) (location_name : String) :
    Except Err Bool :=
  match tz location_name with
  | .response status_code _ =>
    if status_code = 200 then .ok true
    else .error (.invalidLocationName location_name)
  | .requestException => .error .requestException

/-- `FavouritesModel.set_favourite_location` (lines 39-56).  Returns the
outcome and the state after the call.  Mirrors the source exactly: when
`validate_location_name` returns a falsy value without raising, the method
returns normally WITHOUT appending (that branch is proved unreachable). -/
def set_favourite_location (tz : String → HttpResult Unit) (m : FavouritesModel)
    (location : String) : Except Err Unit × FavouritesModel :=
  if location ∈ m.favourites then (.error (.duplicateLocation location), m)
  else
    match validate_location_name tz location with
    | .error e => (.error e, m)
    | .ok success =>
      if success then (.ok (), { m with favourites := m.favourites ++ [location] })
      else (.ok (), m)

/-- `FavouritesModel.remove_favourite_location` (lines 58-75).
`self.favourites.remove(location)` removes the first occurrence and raises
`ValueError` when absent, re-raised as the not-found error. -/
def remove_favourite_location (m : FavouritesModel) (location : String) :
    Except Err Unit × FavouritesModel :=
  match check_if_empty m with
  | .error e => (.error e, m)
  | .ok _ =>
    if location ∈ m.favourites then
      (.ok (), { m with favourites := m.favourites.erase location })
    else
      (.error (.locationNotFound location), m)

/-- `FavouritesModel.clear_favourites` (lines 77-84): unconditionally empties
the list (the empty case only logs a warning). -/
def clear_favourites (m : FavouritesModel) : FavouritesModel :=
  { m with favourites := [] }

/-- `FavouritesModel.get_all_favourites` (lines 90-96). -/
def get_all_favourites (m : FavouritesModel) : Except Err (List String) :=
  match check_if_empty m with
  | .error e => .error e
  | .ok _ => .ok m.favourites

/-- One iteration of the weather-fetch pattern shared by
`get_weather_by_favourite_location` and `get_all_favourite_weathers`
(lines 120-142 / 164-186): one `/current.json` request for `location`; on
status 200 the source subscripts the un-decoded response and faults
(`build_current_weather`), other statuses raise the invalid-location error,
transport failures are re-raised. -/
def fetch_current (cur : String → HttpResult CurrentBody) (location : String) :
    Except Err CurrentWeather :=
  match cur location with
  | .response status_code body =>
    if status_code = 200 then build_current_weather location body
    else .error (.invalidLocationName location)
  | .requestException => .error .requestException

/-- `FavouritesModel.get_weather_by_favourite_location` (lines 98-145). -/
def get_weather_by_favourite_location (cur : String → HttpResult CurrentBody)
    (m : FavouritesModel) (favourite_location : String) : Except Err CurrentWeather :=
  match check_if_empty m with
  | .error e => .error e
  | .ok _ =>
    if favourite_location ∈ m.favourites then fetch_current cur favourite_location
    else .error (.locationNotFound favourite_location)

/-- The `for location in self.favourites` loop of `get_all_favourite_weathers`
(lines 158-187).  Also returns the list of locations for which a provider
request was issued: the loop raises at the first failing location, so later
locations are never requested. -/
def get_all_weathers_loop (cur : String → HttpResult CurrentBody) :
    List String → Except Err (List CurrentWeather) × List String
  | [] => (.ok [], [])
  | location :: rest =>
    match fetch_current cur location with
    | .error e => (.error e, [location])
    | .ok w =>
      match get_all_weathers_loop cur rest with
      | (.ok ws, trace) => (.ok (w :: ws), location :: trace)
      | (.error e, trace) => (.error e, location :: trace)

/-- `FavouritesModel.get_all_favourite_weathers` (lines 147-187), with the
request trace. -/
def get_all_favourite_weathers (cur : String → HttpResult CurrentBody)
    (m : FavouritesModel) : Except Err (List CurrentWeather) × List String :=
  match check_if_empty m with
  | .error e => (.error e, [])
  | .ok _ => get_all_weathers_loop cur m.favourites

/-- Numeric value of a decimal digit character. -/
def digitVal (c : Char) : Nat := c.toNat - 48

/-- Splits a character list at its first dash. -/
def splitAtDash : List Char → Option (List Char × List Char)
  | [] => none
  | c :: t =>
    if c = '-' then some ([], t)
    else
      match splitAtDash t with
      | some (a, b) => some (c :: a, b)
      | none => none

/-- The strings matched by CPython `strptime`'s `%m` directive
(regex `1[0-2]|0[1-9]|[1-9]`): a month number of one or two digits,
1 through 12, `00` and three-plus-digit forms rejected. -/
def monthToken : List Char → Option Nat
  | [a] =>
    if a.isDigit ∧ 1 ≤ digitVal a then some (digitVal a) else none
  | [a, b] =>
    if a.isDigit ∧ b.isDigit ∧ 1 ≤ 10 * digitVal a + digitVal b ∧
        10 * digitVal a + digitVal b ≤ 12 then
      some (10 * digitVal a + digitVal b)
    else none
  | _ => none

/-- The strings matched by CPython `strptime`'s `%d` directive
(regex `3[01]|[12]\d|0[1-9]|[1-9]`): a day number of one or two digits,
1 through 31. -/
def dayToken : List Char → Option Nat
  | [a] =>
    if a.isDigit ∧ 1 ≤ digitVal a then some (digitVal a) else none
  | [a, b] =>
    if a.isDigit ∧ b.isDigit ∧ 1 ≤ 10 * digitVal a + digitVal b ∧
        10 * digitVal a + digitVal b ≤ 31 then
      some (10 * digitVal a + digitVal b)
    else none
  | _ => none

/-- Length of month `m` of year `y` in the proleptic Gregorian calendar, as
checked by `datetime.datetime`'s constructor. -/
def daysInMonth (y m : Nat) : Nat :=
  if m = 2 then
    if y % 4 = 0 ∧ (y % 100 ≠ 0 ∨ y % 400 = 0) then 29 else 28
  else if m = 4 ∨ m = 6 ∨ m = 9 ∨ m = 11 then 30
  else 31

/-- `datetime.strptime(date, "%Y-%m-%d")` (favourites_model.py line 202):
`%Y` is exactly four digits, a literal dash, `%m` and `%d` one-or-two-digit
month/day (zero-padding optional), the whole string consumed, then the
`datetime` constructor's range checks (year ≥ 1, day within the month). -/
def strptime_Ymd (s : String) : Option (Nat × Nat × Nat) :=
  match s.toList with
  | y1 :: y2 :: y3 :: y4 :: c :: rest =>
    if y1.isDigit ∧ y2.isDigit ∧ y3.isDigit ∧ y4.isDigit ∧ c = '-' then
      let y := 1000 * digitVal y1 + 100 * digitVal y2 + 10 * digitVal y3 + digitVal y4
      match splitAtDash rest with
      | some (mtok, dtok) =>
        match monthToken mtok, dayToken dtok with
        | some mo, some d =>
          if 1 ≤ y ∧ d ≤ daysInMonth y mo then some (y, mo, d) else none
        | _, _ => none
      | none => none
    else none
  | _ => none

/-- `FavouritesModel.get_historical_weather_by_favourite_location`
(lines 189-246).  `resp` is the provider's answer to the single
`/history.json` request; the second component of the result counts the
provider requests actually issued (0 or 1). -/
def get_historical_weather_by_favourite_location (resp : HttpResult ForecastBody)
    (m : FavouritesModel) (favourite_location date : String) :
    Except Err WeatherData × Nat :=
  match check_if_empty m with
  | .error e => (.error e, 0)
  | .ok _ =>
    match strptime_Ymd date with
    | none => (.error (.invalidDateFormat date), 0)
    | some _ =>
      if favourite_location ∈ m.favourites then
        (match resp with
         | .response status_code body =>
           if status_code = 200 then build_historical_weather_data favourite_location body
           else .error (.invalidLocationName favourite_location)
         | .requestException => .error .requestException, 1)
      else
        (.error (.locationNotFound favourite_location), 0)

/-- `FavouritesModel.get_forecast_by_favourite_location` (lines 248-305).
`resp` is the provider's answer to the single `/forecast.json` request; the
second component counts the provider requests issued (0 or 1). -/
def get_forecast_by_favourite_location (resp : HttpResult ForecastBody)
    (m : FavouritesModel) (favourite_location : String) (days : Int) :
    Except Err (List WeatherData) × Nat :=
  match check_if_empty m with
  | .error e => (.error e, 0)
  | .ok _ =>
    if ¬(days > 0 ∧ days ≤ 10) then (.error (.invalidDays days), 0)
    else if favourite_location ∈ m.favourites then
      (match resp with
       | .response status_code body =>
         if status_code = 200 then build_forecast_weather_data favourite_location body
         else .error (.invalidLocationName favourite_location)
       | .requestException => .error .requestException, 1)
    else
      (.error (.locationNotFound favourite_location), 0)

/-- A row of the `Users` table (`user_model.py`, `User` dataclass; the salt
and hash are opaque byte strings). -/
structure UserRow where
  id : Nat
  username : String
  salt : String
  hashed_password : String
  deriving DecidableEq, Repr

/-- `user_model.login` (lines 20-57).  `hashpw password salt` is
`bcrypt.hashpw(password.encode("utf-8"), salt)`, deterministic in both
arguments; the `SELECT ... WHERE username = ?` with `fetchone` is the first
matching row. -/
def login (hashpw : String → String → String) (db : List UserRow)
    (username password : String) : Except Err Bool :=
  match db.find? (fun r => r.username == username) with
  | some row =>
    if row.hashed_password == hashpw password row.salt then .ok true else .ok false
  | none => .error (.userNotFound username)

/-- `user_model.update_password` (lines 95-129).  The hash is recomputed from
the `fetchone` row's salt; `UPDATE Users SET hashed_password = ? WHERE
username = ?` rewrites the hash of every row whose username matches and
leaves every other column and row untouched. -/
def update_password (hashpw : String → String → String) (db : List UserRow)
    (username password : String) : Except Err (List UserRow) :=
  match db.find? (fun r => r.username == username) with
  | some row =>
    .ok (db.map (fun r =>
      if r.username == username then
        { r with hashed_password := hashpw password row.salt }
      else r))
  | none => .error (.userNotFound username)

/-- The favourites-mutating operations of `FavouritesModel`. -/
inductive FavOp where
  | setFav (location : String)
  | removeFav (location : String)
  | clearFav
  deriving DecidableEq, Repr

/-- Runs one mutating operation, keeping the state the operation left behind
(on an exception the state before the call, as each method either mutates
once and returns or raises without mutating). -/
def applyFavOp (tz : String → HttpResult Unit) (m : FavouritesModel) :
    FavOp → FavouritesModel
  | .setFav location => (set_favourite_location tz m location).2
  | .removeFav location => (remove_favourite_location m location).2
  | .clearFav => clear_favourites m

/-- Runs a sequence of mutating operations from a given state. -/
def runFavOps (tz : String → HttpResult Unit) (m : FavouritesModel)
    (ops : List FavOp) : FavouritesModel :=
  ops.foldl (applyFavOp tz) m

/-- A location name the provider's timezone endpoint accepts (status 200). -/
def validatedOk (tz : String → HttpResult Unit) (location : String) : Prop :=
  validate_location_name tz location = .ok true

/-- The registry invariant of the spec: no duplicate favourites, and every
favourite has passed provider-side name validation. -/
def FavInvariant (tz : String → HttpResult Unit) (m : FavouritesModel) : Prop :=
  m.favourites.Nodup ∧ ∀ l ∈ m.favourites, validatedOk tz l

lemma favInvariant_applyFavOp (tz : String → HttpResult Unit) (m : FavouritesModel)
    (op : FavOp) (h : FavInvariant tz m) : FavInvariant tz (applyFavOp tz m op) := by
  obtain ⟨hnd, hval⟩ := h
  cases op with
  | setFav l =>
    by_cases hmem : l ∈ m.favourites
    · have heq : applyFavOp tz m (.setFav l) = m := by
        simp [applyFavOp, set_favourite_location, hmem]
      rw [heq]; exact ⟨hnd, hval⟩
    · cases htz : tz l with
      | response s b =>
        by_cases hs : s = 200
        · subst hs
          have heq : applyFavOp tz m (.setFav l) =
              { m with favourites := m.favourites ++ [l] } := by
            simp [applyFavOp, set_favourite_location, validate_location_name, hmem, htz]
          rw [heq]
          refine ⟨?_, ?_⟩
          · simp [List.nodup_append, hnd, hmem]
          · intro x hx
            rcases List.mem_append.mp hx with hx1 | hx2
            · exact hval x hx1
            · have hxl : x = l := by simpa using hx2
              subst hxl
              simp [validatedOk, validate_location_name, htz]
        · have heq : applyFavOp tz m (.setFav l) = m := by
            simp [applyFavOp, set_favourite_location, validate_location_name, hmem, htz, hs]
          rw [heq]; exact ⟨hnd, hval⟩
      | requestException =>
        have heq : applyFavOp tz m (.setFav l) = m := by
          simp [applyFavOp, set_favourite_location, validate_location_name, hmem, htz]
        rw [heq]; exact ⟨hnd, hval⟩
  | removeFav l =>
    by_cases hemp : m.favourites = []
    · have heq : applyFavOp tz m (.removeFav l) = m := by
        simp [applyFavOp, remove_favourite_location, check_if_empty, hemp]
      rw [heq]; exact ⟨hnd, hval⟩
    · by_cases hmem : l ∈ m.favourites
      · have heq : applyFavOp tz m (.removeFav l) =
            { m with favourites := m.favourites.erase l } := by
          simp [applyFavOp, remove_favourite_location, check_if_empty, hemp, hmem]
        rw [heq]
        exact ⟨hnd.erase l, fun x hx => hval x (List.mem_of_mem_erase hx)⟩
      · have heq : applyFavOp tz m (.removeFav l) = m := by
          simp [applyFavOp, remove_favourite_location, check_if_empty, hemp, hmem]
        rw [heq]; exact ⟨hnd, hval⟩
  | clearFav =>
    refine ⟨?_, ?_⟩
    · simp [applyFavOp, clear_favourites]
    · simp [applyFavOp, clear_favourites]

lemma favInvariant_runFavOps (tz : String → HttpResult Unit) :
    ∀ (ops : List FavOp) (m : FavouritesModel), FavInvariant tz m →
      FavInvariant tz (runFavOps tz m ops) := by
  intro ops
  induction ops with
  | nil => intro m h; exact h
  | cons op rest ih =>
    intro m h
    exact ih (applyFavOp tz m op) (favInvariant_applyFavOp tz m op h)

/-- Claim C3: `set_favourite_location` fails with the duplicate-entry error
when the location is already present (favourites unchanged); when absent and
provider validation fails it fails with the invalid-location error (or the
transport error) and the location is not added; when absent and validation
succeeds (status 200) it appends the location to the end of the sequence,
leaving all earlier entries in place. -/
theorem set_favourite_location_spec :
    ∀ (tz : String → HttpResult Unit) (m : FavouritesModel) (location : String),
      (location ∈ m.favourites →
        set_favourite_location tz m location =
          (.error (.duplicateLocation location), m))
    ∧ (location ∉ m.favourites → ∀ (s : Nat) (b : Unit),
        tz location = .response s b → s ≠ 200 →
        set_favourite_location tz m location =
          (.error (.invalidLocationName location), m))
    ∧ (location ∉ m.favourites → tz location = .requestException →
        set_favourite_location tz m location = (.error .requestException, m))
    ∧ (location ∉ m.favourites → ∀ b : Unit, tz location = .response 200 b →
        set_favourite_location tz m location =
          (.ok (), { m with favourites := m.favourites ++ [location] })) := by
  intro tz m location
  refine ⟨?_, ?_, ?_, ?_⟩
  · intro hmem
    simp [set_favourite_location, hmem]
  · intro hmem s b htz hs
    simp [set_favourite_location, validate_location_name, hmem, htz, hs]
  · intro hmem htz
    simp [set_favourite_location, validate_location_name, hmem, htz]
  · intro hmem b htz
    simp [set_favourite_location, validate_location_name, hmem, htz]

/-- Claim C4: `remove_favourite_location` fails with the empty-collection
error when the favourites sequence is empty (state unchanged), fails with the
not-found error when the location is not present (state unchanged), and
otherwise removes exactly the one matching entry, preserving the relative
order of all remaining entries. -/
theorem remove_favourite_location_spec :
    ∀ (m : FavouritesModel) (location : String),
      (m.favourites = [] →
        remove_favourite_location m location = (.error .emptyFavourites, m))
    ∧ (m.favourites ≠ [] → location ∉ m.favourites →
        remove_favourite_location m location =
          (.error (.locationNotFound location), m))
    ∧ (∀ pre post, m.favourites = pre ++ location :: post → location ∉ pre →
        remove_favourite_location m location =
          (.ok (), { m with favourites := pre ++ post })) := by
  intro m location
  refine ⟨?_, ?_, ?_⟩
  · intro hemp
    simp [remove_favourite_location, check_if_empty, hemp]
  · intro hne hmem
    simp [remove_favourite_location, check_if_empty, hne, hmem]
  · intro pre post hdec hpre
    have hne : m.favourites ≠ [] := by rw [hdec]; simp
    have hmem : location ∈ m.favourites := by rw [hdec]; simp
    have her : m.favourites.erase location = pre ++ post := by
      rw [hdec, List.erase_append_right _ hpre, List.erase_cons_head]
    simp [remove_favourite_location, check_if_empty, hne, hmem, her]

/-- Claim C7: `login` fails with the not-found error when no record for the
username exists, returns `true` when the hash of the supplied password under
the stored salt equals the stored hash, and returns `false` (a defined
result, not an error) otherwise. -/
theorem login_spec :
    ∀ (hashpw : String → String → String) (db : List UserRow) (u p : String),
      ((∀ r ∈ db, r.username ≠ u) →
        login hashpw db u p = .error (.userNotFound u))
    ∧ (∀ row, db.find? (fun r => r.username == u) = some row →
        hashpw p row.salt = row.hashed_password →
        login hashpw db u p = .ok true)
    ∧ (∀ row, db.find? (fun r => r.username == u) = some row →
        hashpw p row.salt ≠ row.hashed_password →
        login hashpw db u p = .ok false) := by
  intro hashpw db u p
  refine ⟨?_, ?_, ?_⟩
  · intro hno
    have hfind : db.find? (fun r => r.username == u) = none := by
      rw [List.find?_eq_none]
      intro r hr
      simpa using hno r hr
    simp [login, hfind]
  · intro row hfind hh
    have hbeq : (row.hashed_password == hashpw p row.salt) = true :=
      beq_iff_eq.mpr hh.symm
    simp [login, hfind, hbeq]
  · intro row hfind hh
    have hbeq : (row.hashed_password == hashpw p row.salt) = false := by
      rw [beq_eq_false_iff_ne]
      exact fun hcon => hh hcon.symm
    simp [login, hfind, hbeq]

/-- Claim C10: `validate_location_name` never returns `false` — it returns
`true` (status 200) or fails — so the branch of `set_favourite_location`
that would return normally without appending is unreachable: whenever
`set_favourite_location` returns normally, the location was appended. -/
theorem validate_never_false_spec :
    (∀ (tz : String → HttpResult Unit) (location : String),
      validate_location_name tz location ≠ .ok false)
  ∧ (∀ (tz : String → HttpResult Unit) (m : FavouritesModel) (location : String),
      (set_favourite_location tz m location).1 = .ok () →
      (set_favourite_location tz m location).2.favourites =
        m.favourites ++ [location]) := by
  constructor
  · intro tz location h
    cases htz : tz location with
    | response s b =>
      by_cases hs : s = 200
      · simp [validate_location_name, htz, hs] at h
      · simp [validate_location_name, htz, hs] at h
    | requestException => simp [validate_location_name, htz] at h
  · intro tz m location h
    by_cases hmem : location ∈ m.favourites
    · simp [set_favourite_location, hmem] at h
    · cases htz : tz location with
      | response s b =>
        by_cases hs : s = 200
        · subst hs
          simp [set_favourite_location, validate_location_name, hmem, htz]
      
        · simp [set_favourite_location, validate_location_name, hmem, htz, hs] at h
      | requestException =>
        simp [set_favourite_location, validate_location_name, hmem, htz] at h

/-- Claim C2 (amended): for every 200-status provider response — whatever
JSON body it carries, missing fields or complete — each weather-mapping
site (current, historical-single-day, forecast-multi-day) faults with the
uncaught `TypeError` before reading any field, because the response is
never JSON-decoded; the code defines no `MalformedResponse` error (no such
raise site exists, hence no `Err` constructor). -/
theorem weather_mapping_spec :
    (∀ (cur : String → HttpResult CurrentBody) (m : FavouritesModel)
       (l : String) (body : CurrentBody),
       m.favourites ≠ [] → l ∈ m.favourites → cur l = .response 200 body →
       get_weather_by_favourite_location cur m l = .error .typeError)
  ∧ (∀ (m : FavouritesModel) (l date : String) (body : ForecastBody)
       (ymd : Nat × Nat × Nat),
       m.favourites ≠ [] → strptime_Ymd date = some ymd → l ∈ m.favourites →
       get_historical_weather_by_favourite_location (.response 200 body)
         m l date = (.error .typeError, 1))
  ∧ (∀ (m : FavouritesModel) (l : String) (days : Int) (body : ForecastBody),
       m.favourites ≠ [] → days > 0 → days ≤ 10 → l ∈ m.favourites →
       get_forecast_by_favourite_location (.response 200 body) m l days =
         (.error .typeError, 1)) := by
  refine ⟨?_, ?_, ?_⟩
  · intro cur m l body hne hmem hcur
    simp [get_weather_by_favourite_location, check_if_empty, fetch_current,
      build_current_weather, hne, hmem, hcur]
  · intro m l date body ymd hne hdate hmem
    simp [get_historical_weather_by_favourite_location, check_if_empty,
      build_historical_weather_data, hne, hdate, hmem]
  · intro m l days body hne h0 h10 hmem
    simp [get_forecast_by_favourite_location, check_if_empty,
      build_forecast_weather_data, hne, h0, h10, hmem]

/-- Claim C5 (amended): `get_historical_weather_by_favourite_location` checks
in this order — empty favourites (no provider call), then the date parse
(`strptime` with `%Y-%m-%d`, which also accepts non-zero-padded month/day),
then membership (no provider call) — and only when all pass does it issue
the single provider request. -/
theorem get_historical_check_order_spec :
    ∀ (resp : HttpResult ForecastBody) (m : FavouritesModel)
      (location date : String),
      (m.favourites = [] →
        get_historical_weather_by_favourite_location resp m location date =
          (.error .emptyFavourites, 0))
    ∧ (m.favourites ≠ [] → strptime_Ymd date = none →
        get_historical_weather_by_favourite_location resp m location date =
          (.error (.invalidDateFormat date), 0))
    ∧ (m.favourites ≠ [] → ∀ ymd, strptime_Ymd date = some ymd →
        location ∉ m.favourites →
        get_historical_weather_by_favourite_location resp m location date =
          (.error (.locationNotFound location), 0))
    ∧ (m.favourites ≠ [] → ∀ ymd, strptime_Ymd date = some ymd →
        location ∈ m.favourites →
        (get_historical_weather_by_favourite_location resp m location date).2 = 1) := by
  intro resp m location date
  refine ⟨?_, ?_, ?_, ?_⟩
  · intro hemp
    simp [get_historical_weather_by_favourite_location, check_if_empty, hemp]
  · intro hne hdate
    simp [get_historical_weather_by_favourite_location, check_if_empty, hne, hdate]
  · intro hne ymd hdate hmem
    simp [get_historical_weather_by_favourite_location, check_if_empty, hne,
      hdate, hmem]
  · intro hne ymd hdate hmem
    simp [get_historical_weather_by_favourite_location, check_if_empty, hne,
      hdate, hmem]

/-- Claim C8: for an existing user (usernames unique, as the `Users` table
enforces), `update_password` replaces only the stored hash — recomputed from
the new password and that row's existing salt — leaving the salt, id and
username of every row unchanged and all other rows untouched; for an absent
username it fails with the not-found error and returns no updated store. -/
theorem update_password_spec :
    ∀ (hashpw : String → String → String) (db : List UserRow) (u p : String),
      ((∀ r ∈ db, r.username ≠ u) →
        update_password hashpw db u p = .error (.userNotFound u))
    ∧ ((db.map (fun r => r.username)).Nodup → ∀ r0 ∈ db, r0.username = u →
        update_password hashpw db u p =
          .ok (db.map (fun r =>
            if r.username = u then
              { r with hashed_password := hashpw p r.salt }
            else r))) := by
  intro hashpw db u p
  constructor
  · intro hno
    have hfind : db.find? (fun r => r.username == u) = none := by
      rw [List.find?_eq_none]
      intro r hr
      simpa using hno r hr
    simp [update_password, hfind]
  · intro hnd r0 hr0 hr0u
    have hsome : (db.find? (fun r => r.username == u)).isSome := by
      rw [List.find?_isSome]
      exact ⟨r0, hr0, by simpa using hr0u⟩
    obtain ⟨row, hfind⟩ := Option.isSome_iff_exists.mp hsome
    have hrow_mem : row ∈ db := List.mem_of_find?_eq_some hfind
    have hrow_u : row.username = u := by simpa using List.find?_some hfind
    have hmap : db.map (fun r =>
        if r.username == u then
          { r with hashed_password := hashpw p row.salt }
        else r) =
        db.map (fun r =>
          if r.username = u then
            { r with hashed_password := hashpw p r.salt }
          else r) := by
      apply List.map_congr_left
      intro r hr
      by_cases hru : r.username = u
      · have hreq : r = row :=
          List.inj_on_of_nodup_map hnd hr hrow_mem (by rw [hru, hrow_u])
        subst hreq
        simp [hru]
      · have hbeq : (r.username == u) = false := by
          rw [beq_eq_false_iff_ne]; exact hru
        simp [hbeq, hru]
    show update_password hashpw db u p = _
    unfold update_password
    rw [hfind]
    exact congrArg Except.ok hmap

/-- Claim C9: every registry reachable from the initial empty state by any
sequence of set/remove/clear operations has duplicate-free favourites whose
every entry has passed provider-side name validation. -/
theorem favourites_invariant_spec :
    ∀ (tz : String → HttpResult Unit) (username api_key : String)
      (ops : List FavOp),
      FavInvariant tz (runFavOps tz (initFavouritesModel username api_key) ops) := by
  intro tz username api_key ops
  apply favInvariant_runFavOps
  exact ⟨List.nodup_nil, fun l hl => absurd hl (List.not_mem_nil l)⟩

/-- A registry with the single validated favourite `Boston`. -/
def bostonModel : FavouritesModel :=
  { username := "user"
    favourites := ["Boston"]
    base_url := "http://api.weatherapi.com/v1"
    api_key := "key" }

/-- A provider day whose rain chance (30) differs from its snow chance (70). -/
def snowDayFields : DayFields :=
  { mintemp_c := some (-3)
    maxtemp_c := some 2
    avgtemp_c := some 0
    maxwind_kph := some 20
    totalprecip_mm := some 1
    totalsnow_cm := some 5
    avgvis_km := some 8
    avghumidity := some 80
    daily_chance_of_rain := some 30
    daily_chance_of_snow := some 70
    condition := some { text := some "Snowy" } }

def snowDayA : DayEntry := { date := some "2024-12-09", day := some snowDayFields }

def snowDayB : DayEntry := { date := some "2024-12-10", day := some snowDayFields }

def snowDayC : DayEntry := { date := some "2024-12-11", day := some snowDayFields }

/-- A 200-status `/forecast.json` response carrying three days. -/
def forecastResp3 : HttpResult ForecastBody :=
  .response 200 (some { forecastday := some [snowDayA, snowDayB, snowDayC] })

/-- Claim C1 (code bug): the day bounds behave as claimed — `days = 0` and
`days = 11` fail with the invalid-input error before any request — but at
`days = 3` with a 200-status 3-day payload (rain chance 30, snow chance 70)
the source issues the single request and then raises the uncaught
`TypeError` at `response["forecast"]` (line 279; `.json()` is never
called), so it returns no records at all — let alone records whose
`chance_of_snow` equals the provider snow chance.  The repository's own
tests configure `response.json(...)` and assert returned records, and even
the decode they intend would fail the snow-chance expectation
(`test_favourites_model.py:324`), since lines 233/292 read
`daily_chance_of_rain` for both chance fields. -/
theorem forecast_request_faults_before_mapping :
    get_forecast_by_favourite_location forecastResp3 bostonModel "Boston" 3 =
      (.error .typeError, 1)
  ∧ get_forecast_by_favourite_location forecastResp3 bostonModel "Boston" 0 =
      (.error (.invalidDays 0), 0)
  ∧ get_forecast_by_favourite_location forecastResp3 bostonModel "Boston" 11 =
      (.error (.invalidDays 11), 0) :=
  ⟨rfl, rfl, rfl⟩

/-- A 200-status `/history.json` response carrying one day. -/
def histResp : HttpResult ForecastBody :=
  .response 200 (some { forecastday := some [snowDayA] })

/-- Claim C5 counterexample: `"2022-5-1"` does not match the `YYYY-MM-DD`
format (it is 8 characters, month and day not zero-padded), yet
`get_historical_weather_by_favourite_location` does not fail with the
invalid-input error: `strptime` with `%Y-%m-%d` accepts non-zero-padded
month/day, so the call passes the date check, issues the provider request
(count 1), and then faults with the uncaught `TypeError` at
`response["forecast"]`. -/
theorem historical_unpadded_date_not_rejected :
    "2022-5-1".length = 8
  ∧ strptime_Ymd "2022-5-1" = some (2022, 5, 1)
  ∧ get_historical_weather_by_favourite_location histResp bostonModel
      "Boston" "2022-5-1" = (.error .typeError, 1) :=
  ⟨rfl, by decide, rfl⟩

/-- A provider that accepts every location name (status 200). -/
def tzAccept : String → HttpResult Unit := fun _ => .response 200 ()

/-- A provider that rejects every location name (status 400). -/
def tzReject : String → HttpResult Unit := fun _ => .response 400 ()

/-- Witness for claim C3 at a concrete registry and provider. -/
theorem set_favourite_location_spec_witness :
    set_favourite_location tzAccept (initFavouritesModel "user" "key") "Boston" =
      (.ok (), { initFavouritesModel "user" "key" with favourites := ["Boston"] }) :=
  (set_favourite_location_spec tzAccept (initFavouritesModel "user" "key")
    "Boston").2.2.2 (List.not_mem_nil "Boston") () rfl

/-- A registry with three validated favourites. -/
def triModel : FavouritesModel :=
  { username := "user"
    favourites := ["Boston", "New York", "Chicago"]
    base_url := "http://api.weatherapi.com/v1"
    api_key := "key" }

/-- Witness for claim C4: removing the middle favourite keeps the order of
the remaining two. -/
theorem remove_favourite_location_spec_witness :
    remove_favourite_location triModel "New York" =
      (.ok (), { triModel with favourites := ["Boston", "Chicago"] }) :=
  (remove_favourite_location_spec triModel "New York").2.2 ["Boston"] ["Chicago"]
    rfl (by decide)

/-- Witness for the amended claim C5 theorem: the spec scenario — empty
favourites, so the historical lookup fails with the empty-collection error
and issues no provider request. -/
theorem get_historical_check_order_spec_witness :
    get_historical_weather_by_favourite_location histResp
      (initFavouritesModel "user" "key") "Boston" "2022-05-01" =
      (.error .emptyFavourites, 0) :=
  (get_historical_check_order_spec histResp (initFavouritesModel "user" "key")
    "Boston" "2022-05-01").1 rfl

/-- The spec scenario's Boston payload: 22.5 °C, Clear. -/
def bostonCurFields : CurrentFields :=
  { temp_c := some 22.5
    feelslike_c := some 21
    humidity := some 40
    wind_kph := some 10
    wind_dir := some "N"
    pressure_mb := some 1012
    precip_mm := some 0
    cloud := some 5
    condition := some { text := some "Clear" } }

/-- The spec scenario's New York payload: 18.0 °C, Rainy. -/
def nyCurFields : CurrentFields :=
  { temp_c := some 18.0
    feelslike_c := some 17
    humidity := some 70
    wind_kph := some 15
    wind_dir := some "E"
    pressure_mb := some 1008
    precip_mm := some 2
    cloud := some 90
    condition := some { text := some "Rainy" } }

/-- A provider answering the spec scenario's payloads for Boston and New
York and rejecting everything else. -/
def curScenario : String → HttpResult CurrentBody := fun l =>
  if l = "Boston" then .response 200 (some bostonCurFields)
  else if l = "New York" then .response 200 (some nyCurFields)
  else .response 400 none

/-- A registry with favourites Boston then New York, in that order. -/
def scenarioModel : FavouritesModel :=
  { username := "user"
    favourites := ["Boston", "New York"]
    base_url := "http://api.weatherapi.com/v1"
    api_key := "key" }

/-- Claim C6 (code bug): with favourites `["Boston", "New York"]` and a
provider answering status 200 with the spec scenario payloads
(22.5 °C/Clear, 18.0 °C/Rainy), `get_all_favourite_weathers` issues one
request — for Boston only — and aborts with the uncaught `TypeError` at
`response["current"]` (the response is never JSON-decoded), returning no
records, so the claimed two in-order records are impossible; the
empty-favourites half of the claim does hold (no request, empty-collection
error), as the second conjunct shows. -/
theorem get_all_faults_on_first_favourite :
    get_all_favourite_weathers curScenario scenarioModel =
      (.error .typeError, ["Boston"])
  ∧ get_all_favourite_weathers curScenario (initFavouritesModel "user" "key") =
      (.error .emptyFavourites, []) :=
  ⟨rfl, rfl⟩

/-- A `current` payload missing only the `temp_c` key. -/
def noTempFields : CurrentFields :=
  { temp_c := none
    feelslike_c := some 1
    humidity := some 2
    wind_kph := some 3
    wind_dir := some "N"
    pressure_mb := some 4
    precip_mm := some 5
    cloud := some 6
    condition := some { text := some "Clear" } }

/-- Claim C2 counterexample: the current-weather translation does not fail
with a defined `MalformedResponse` error when an expected field is absent,
and does not produce a record when every field is present — on both carried
payloads the call faults with the uncaught `TypeError`, because the source
subscripts the never-decoded `requests.Response` (`response["current"]`,
line 125) before any payload key could be read; no `MalformedResponse`
error exists anywhere in the code. -/
theorem current_translation_uncaught_fault :
    get_weather_by_favourite_location
      (fun _ => .response 200 (some noTempFields)) bostonModel "Boston" =
      .error .typeError
  ∧ get_weather_by_favourite_location
      (fun _ => .response 200 (some bostonCurFields)) bostonModel "Boston" =
      .error .typeError :=
  ⟨rfl, rfl⟩

/-- Witness for the amended claim C2 theorem: a concrete registry and a
complete carried payload. -/
theorem weather_mapping_spec_witness :
    get_weather_by_favourite_location
      (fun _ => .response 200 (some bostonCurFields)) bostonModel "Boston" =
      .error .typeError :=
  weather_mapping_spec.1 (fun _ => .response 200 (some bostonCurFields))
    bostonModel "Boston" (some bostonCurFields) (by simp [bostonModel])
    (by simp [bostonModel]) rfl

/-- A deterministic stand-in for `bcrypt.hashpw` in witnesses. -/
def hashDemo : String → String → String := fun password salt => salt ++ password

/-- A two-user credential store with distinct salts. -/
def usersDb : List UserRow :=
  [⟨1, "alice", "s1", "s1pw1"⟩, ⟨2, "bob", "s2", "s2pw2"⟩]

/-- Witness for claim C7: correct password logs in, wrong password yields
`false`, unknown username fails with the not-found error. -/
theorem login_spec_witness :
    login hashDemo usersDb "alice" "pw1" = .ok true
  ∧ login hashDemo usersDb "alice" "bad" = .ok false
  ∧ login hashDemo usersDb "carol" "pw1" = .error (.userNotFound "carol") :=
  ⟨(login_spec hashDemo usersDb "alice" "pw1").2.1 ⟨1, "alice", "s1", "s1pw1"⟩
      rfl rfl,
   (login_spec hashDemo usersDb "alice" "bad").2.2 ⟨1, "alice", "s1", "s1pw1"⟩
      rfl (by decide),
   (login_spec hashDemo usersDb "carol" "pw1").1 (by decide)⟩

/-- Witness for claim C8: only alice's hash changes, recomputed from her
stored salt `s1`; her salt and bob's whole row are untouched. -/
theorem update_password_spec_witness :
    update_password hashDemo usersDb "alice" "new" =
      .ok [⟨1, "alice", "s1", "s1new"⟩, ⟨2, "bob", "s2", "s2pw2"⟩] :=
  (update_password_spec hashDemo usersDb "alice" "new").2 (by decide)
    ⟨1, "alice", "s1", "s1pw1"⟩ (by decide) rfl

/-- Witness for claim C9 at a concrete operation sequence. -/
theorem favourites_invariant_spec_witness :
    FavInvariant tzAccept
      (runFavOps tzAccept (initFavouritesModel "user" "key")
        [.setFav "Boston", .setFav "New York", .removeFav "Boston",
         .clearFav, .setFav "Chicago"]) :=
  favourites_invariant_spec tzAccept "user" "key"
    [.setFav "Boston", .setFav "New York", .removeFav "Boston",
     .clearFav, .setFav "Chicago"]

/-- Witness for claim C10 at concrete providers and registry. -/
theorem validate_never_false_spec_witness :
    validate_location_name tzReject "Atlantis" ≠ .ok false
  ∧ (set_favourite_location tzAccept (initFavouritesModel "user" "key")
      "Boston").2.favourites =
      (initFavouritesModel "user" "key").favourites ++ ["Boston"] :=
  ⟨validate_never_false_spec.1 tzReject "Atlantis",
   validate_never_false_spec.2 tzAccept (initFavouritesModel "user" "key")
     "Boston" rfl⟩
